import Mathlib

/-!
Verification development for the Meal-Ticketing repository
(`src/app/page.tsx`, component `MealTicketSystem`).

The component is a single-page redemption session controller: React
`useState` fields form the controller state, and the event handlers
(`handleLogin`, `verifyMeal`, `startQRDetection`'s frame callback,
`stopQRScanner`, `startQRScanner`, `handleLogout`, the already-used
acknowledgement button) are embedded below as pure functions from a
controller state (plus the decoded remote response) to a new state.
Remote JSON responses are modelled by inductives mirroring exactly the
shapes the code branches on (`data.success`, `data.errorType`,
`result.success`), and a thrown `fetch`/`json` is the `thrown`
constructor of `FetchResult`.
-/

/-- The four values ever assigned to the `currentPage` state variable. -/
inductive Page where
  | login
  | dashboard
  | success
  | alreadyUsed
deriving DecidableEq, Repr

/-- `interface SessionData` of `src/app/page.tsx` (lines 6-12). -/
structure SessionData where
  id : String
  name : String
  department : String
  location : String
  price : Nat
deriving DecidableEq, Repr

/-- `interface MealUsedInfo` of `src/app/page.tsx` (lines 14-22). -/
structure MealUsedInfo where
  name : String
  department : String
  location : String
  staffId : String
  usedDate : String
  usedTime : String
  price : Nat
deriving DecidableEq, Repr

/-- `const CAFETERIA_QR_CODE` (line 47). -/
def CAFETERIA_QR_CODE : String := "ELIZADE NIGERIA LIMITED MEAL TICKETING"

/-- Result of `await fetch(...)` followed by `await response.json()`:
either the decoded JSON value or a thrown network/parse error that lands
in the surrounding `catch`. -/
inductive FetchResult (α : Type) where
  | ok (data : α)
  | thrown
deriving DecidableEq, Repr

/-- JavaScript `String.prototype.toUpperCase()` as used on the ASCII
staff credentials: uppercase every character. -/
def jsToUpper (s : String) : String := String.mk (s.data.map Char.toUpper)

/-- Strip leading and trailing whitespace from a character list:
drop the whitespace prefix, then drop the whitespace suffix. -/
def trimChars (l : List Char) : List Char :=
  ((l.dropWhile Char.isWhitespace).reverse.dropWhile Char.isWhitespace).reverse

/-- JavaScript `String.prototype.trim()`: remove leading and trailing
whitespace. -/
def jsTrim (s : String) : String := String.mk (trimChars s.data)

/-- The credential normalization `x.toUpperCase().trim()` applied by
`handleLogin` to both the staff ID and the surname (lines 99-100). -/
def normalizeCred (s : String) : String := jsTrim (jsToUpper s)

/-- JavaScript `x || d` on a possibly-absent string field: `undefined`
and the empty string are falsy and select the fallback. -/
def jsOr (o : Option String) (d : String) : String :=
  match o with
  | some m => if m = "" then d else m
  | none => d

/-- The `data.mealInfo` payload read in the `ALREADY_USED` branch of
`handleLogin` (lines 110-118): `location` and `price` may be absent
(the code guards them with `|| 'Unknown'` and `|| 0`). -/
structure MealInfoJson where
  name : String
  department : String
  location : Option String
  date : String
  time : String
  price : Option Nat
deriving DecidableEq, Repr

/-- The `data.staff` payload read in the success branch of `handleLogin`
(lines 134-140): `location` and `price` may be absent. -/
structure StaffJson where
  name : String
  department : String
  location : Option String
  price : Option Nat
deriving DecidableEq, Repr

/-- The decoded `batchLogin` response, split along the branches taken by
`handleLogin` (lines 108-144): `data.success` true carries `data.staff`;
otherwise `data.errorType` is `'ALREADY_USED'` (with `data.mealInfo`),
`'TIME_EXPIRED'` (message in `data.error`), or anything else (invalid
credentials, message in `data.error` with a fallback). -/
inductive LoginJson where
  | success (staff : StaffJson)
  | alreadyUsed (mealInfo : MealInfoJson)
  | timeExpired (error : Option String)
  | otherFailure (error : Option String)
deriving DecidableEq, Repr

/-- The decoded `logMeal` response read by `verifyMeal` (lines 180-185):
a `success` flag and an optional `message`. -/
structure LogMealJson where
  success : Bool
  message : Option String
deriving DecidableEq, Repr

/-- The controller state: the `useState` fields of `MealTicketSystem`
together with the scanner refs (`detectIntervalRef`, `animationFrameRef`
and the camera `MediaStream`, modelled as occupancy flags) and the
pending 5-second error-clearing timer scheduled by the mismatch branch
of the QR detection callback (line 266). -/
structure ControllerState where
  currentPage : Page
  session : Option SessionData
  staffId : String
  surname : String
  error : String
  mealUsedToday : Bool
  loading : Bool
  showQRScanner : Bool
  cameraStream : Bool
  detectInterval : Bool
  animationFrame : Bool
  mealUsedInfo : Option MealUsedInfo
  jsQRLoaded : Bool
  pendingErrorClear : Option Nat
deriving DecidableEq, Repr

/-- The initial `useState` values (lines 54-70). -/
def initState : ControllerState :=
  { currentPage := Page.login
    session := none
    staffId := ""
    surname := ""
    error := ""
    mealUsedToday := false
    loading := false
    showQRScanner := false
    cameraStream := false
    detectInterval := false
    animationFrame := false
    mealUsedInfo := none
    jsQRLoaded := true
    pendingErrorClear := none }

/-- The query parameters of the `batchLogin` request built by
`handleLogin` (lines 98-104): both credentials are uppercased and
trimmed (`upperStaffId`, `upperSurname`) before being placed in the URL. -/
structure LoginRequest where
  action : String
  staffId : String
  surname : String
  date : String
deriving DecidableEq, Repr

/-- The request `handleLogin` sends for raw inputs `rawId`/`rawSn`. -/
def mkLoginRequest (rawId rawSn date : String) : LoginRequest :=
  { action := "batchLogin"
    staffId := normalizeCred rawId
    surname := normalizeCred rawSn
    date := date }

/-- `handleLogin` (lines 91-152) applied to the decoded response of its
single `batchLogin` fetch.  `setError('')`/`setLoading(true)` run first;
each branch then updates exactly the fields the code sets.  The
`setTimeout(..., 100)` page flips are modelled as immediate. -/
def handleLogin (s : ControllerState) (resp : FetchResult LoginJson) : ControllerState :=
  let upperStaffId := normalizeCred s.staffId
  let s0 := { s with error := "", loading := true }
  match resp with
  | FetchResult.thrown =>
      { s0 with
        error := "Connection failed. Please check your internet connection."
        loading := false }
  | FetchResult.ok (LoginJson.alreadyUsed mi) =>
      { s0 with
        mealUsedInfo := some
          { name := mi.name
            department := mi.department
            location := jsOr mi.location "Unknown"
            staffId := upperStaffId
            usedDate := mi.date
            usedTime := mi.time
            price := mi.price.getD 0 }
        loading := false
        currentPage := Page.alreadyUsed }
  | FetchResult.ok (LoginJson.timeExpired e) =>
      { s0 with error := e.getD "", loading := false }
  | FetchResult.ok (LoginJson.otherFailure e) =>
      { s0 with error := jsOr e "Invalid Staff ID or Surname", loading := false }
  | FetchResult.ok (LoginJson.success st) =>
      { s0 with
        session := some
          { id := upperStaffId
            name := st.name
            department := st.department
            location := jsOr st.location "NOT SET"
            price := st.price.getD 0 }
        mealUsedToday := false
        currentPage := Page.dashboard
        loading := false }

/-- The code `verifyMeal` runs after `await response.json()` resolves
(lines 180-191): this is exactly the continuation that would also run if
the response arrived after a logout. -/
def verifyMealResume (s : ControllerState) (resp : FetchResult LogMealJson) : ControllerState :=
  match resp with
  | FetchResult.thrown =>
      { s with error := "Failed to connect. Please try again.", loading := false }
  | FetchResult.ok r =>
      if r.success then
        { s with mealUsedToday := true, currentPage := Page.success, loading := false }
      else
        { s with error := jsOr r.message "Failed to log meal", loading := false }

/-- `verifyMeal` (lines 154-192): early returns on a missing session and
on `mealUsedToday`, otherwise `setLoading(true)`, the `logMeal` fetch,
and the continuation `verifyMealResume`. -/
def verifyMeal (s : ControllerState) (resp : FetchResult LogMealJson) : ControllerState :=
  match s.session with
  | none => { s with currentPage := Page.login }
  | some _ =>
      if s.mealUsedToday then
        { s with error := "You have already used your meal ticket today" }
      else
        verifyMealResume { s with loading := true } resp

/-- `stopQRScanner` (lines 194-216): clear the detection interval and
animation frame, stop the camera tracks, drop the stream, hide the
scanner. -/
def stopQRScanner (s : ControllerState) : ControllerState :=
  { s with
    detectInterval := false
    animationFrame := false
    cameraStream := false
    showQRScanner := false }

/-- The branch of the QR detection callback taken when the decoder
returns a payload (`startQRDetection`, lines 256-269): stop the scanner,
trim and compare against `CAFETERIA_QR_CODE`, then either run
`verifyMeal` or surface the invalid-code error and schedule
`setTimeout(() => setError(''), 5000)`. -/
def onScan (s : ControllerState) (payload : String) (resp : FetchResult LogMealJson) :
    ControllerState :=
  let s1 := stopQRScanner s
  if jsTrim payload = jsTrim CAFETERIA_QR_CODE then
    verifyMeal s1 resp
  else
    { s1 with
      error := "Invalid QR Code. Please scan the correct canteen QR code."
      pendingErrorClear := some 5000 }

/-- `startQRScanner` (lines 283-321) with `granted` the outcome of the
`getUserMedia` request: on grant the stream is stored, the scanner shown
and (after `video.play()`) `startQRDetection` registers the animation
frame; on denial the camera error is surfaced. -/
def startQRScanner (s : ControllerState) (granted : Bool) : ControllerState :=
  if s.jsQRLoaded = false then
    { s with error := "QR scanner is still loading. Please wait a moment and try again." }
  else if granted then
    { s with
      error := ""
      cameraStream := true
      showQRScanner := true
      animationFrame := true }
  else
    { s with
      error := "Camera access denied. Please enable camera permissions."
      showQRScanner := false }

/-- `handleLogout` (lines 323-337): clear session and all transient
fields, run `stopQRScanner`, return to the login page. -/
def handleLogout (s : ControllerState) : ControllerState :=
  let s1 :=
    { s with
      session := none
      mealUsedToday := false
      staffId := ""
      surname := ""
      error := ""
      mealUsedInfo := none }
  let s2 := stopQRScanner s1
  { s2 with loading := false, currentPage := Page.login }

/-- The `Back to Login` button of the already-used page
(lines 667-672): clears `mealUsedInfo`, `staffId`, `surname` and
returns to the login page (it touches nothing else). -/
def ackToLogin (s : ControllerState) : ControllerState :=
  { s with
    mealUsedInfo := none
    staffId := ""
    surname := ""
    currentPage := Page.login }

/-- Firing of the pending `setTimeout(() => setError(''), 5000)` timer. -/
def fireErrorTimer (s : ControllerState) : ControllerState :=
  match s.pendingErrorClear with
  | some _ => { s with error := "", pendingErrorClear := none }
  | none => s

example :
    (handleLogin initState (FetchResult.ok (LoginJson.timeExpired (some "late")))).error
      = "late" := by decide

/-- A concrete dashboard state with an active scanner, used by the
evaluation examples and witnesses below. -/
def demoDashboard : ControllerState :=
  { initState with
    currentPage := Page.dashboard
    session := some { id := "ENL001", name := "ADE", department := "ICT",
                      location := "HQ", price := 500 }
    cameraStream := true
    showQRScanner := true
    animationFrame := true }

example :
    (onScan demoDashboard CAFETERIA_QR_CODE
        (FetchResult.ok { success := true, message := none })).currentPage
      = Page.success := by decide

/-- User-driven events of the controller, each carrying the decoded
response of the remote call it triggers (if any). -/
inductive Event where
  | loginSubmit (resp : FetchResult LoginJson)
  | startScanner (granted : Bool)
  | cancelScan
  | scanDetect (payload : String) (resp : FetchResult LogMealJson)
  | logout
  | ack
  | errorTimer
deriving DecidableEq, Repr

/-- One step of the controller: each handler fires only when its UI
entry point exists and is enabled — the login form only on the login
page with the submit button enabled (`disabled={loading}`), the scan
button only on the dashboard when no meal was used and no scanner is
open, the detection callback only while its animation frame is
registered, the logout buttons only on the dashboard and success pages
(`disabled={loading}`), the acknowledgement button only on the
already-used page.  A guarded-out event leaves the state unchanged. -/
def step (s : ControllerState) (e : Event) : ControllerState :=
  match e with
  | Event.loginSubmit resp =>
      if s.currentPage = Page.login ∧ s.loading = false then handleLogin s resp else s
  | Event.startScanner granted =>
      if s.currentPage = Page.dashboard ∧ s.mealUsedToday = false ∧
          s.showQRScanner = false ∧ s.jsQRLoaded = true ∧ s.loading = false then
        startQRScanner s granted
      else s
  | Event.cancelScan =>
      if s.currentPage = Page.dashboard ∧ s.showQRScanner = true then stopQRScanner s else s
  | Event.scanDetect payload resp =>
      if s.currentPage = Page.dashboard ∧ s.animationFrame = true then
        onScan s payload resp
      else s
  | Event.logout =>
      if (s.currentPage = Page.dashboard ∨ s.currentPage = Page.success) ∧
          s.loading = false then
        handleLogout s
      else s
  | Event.ack =>
      if s.currentPage = Page.alreadyUsed then ackToLogin s else s
  | Event.errorTimer => fireErrorTimer s

/-- States reachable from the initial render by user events. -/
inductive Reachable : ControllerState → Prop where
  | init : Reachable initState
  | next {s : ControllerState} (e : Event) : Reachable s → Reachable (step s e)

/-- Inductive invariant of the controller: on the login page no session
exists and no meal is recorded; on the already-used page additionally no
error is displayed; on the dashboard a session exists and no meal is
recorded yet; on the success page the meal is recorded. -/
def CtrlInv (s : ControllerState) : Prop :=
  (s.currentPage = Page.login → s.session = none ∧ s.mealUsedToday = false)
  ∧ (s.currentPage = Page.alreadyUsed →
      s.session = none ∧ s.error = "" ∧ s.mealUsedToday = false)
  ∧ (s.currentPage = Page.dashboard → s.session.isSome ∧ s.mealUsedToday = false)
  ∧ (s.currentPage = Page.success → s.mealUsedToday = true)

lemma CtrlInv_init : CtrlInv initState := by
  simp [CtrlInv, initState]

lemma CtrlInv_step (s : ControllerState) (e : Event) (h : CtrlInv s) : CtrlInv (step s e) := by
  obtain ⟨hlog, hused, hdash, hsucc⟩ := h
  cases e with
  | loginSubmit resp =>
      simp only [step]
      split
      case isFalse => exact ⟨hlog, hused, hdash, hsucc⟩
      case isTrue hg =>
        obtain ⟨hpage, -⟩ := hg
        obtain ⟨hsess, hmeal⟩ := hlog hpage
        cases resp with
        | thrown =>
            simp [CtrlInv, handleLogin, hpage, hsess, hmeal]
        | ok data =>
            cases data with
            | success st => simp [CtrlInv, handleLogin, hpage, hsess, hmeal]
            | alreadyUsed mi => simp [CtrlInv, handleLogin, hpage, hsess, hmeal]
            | timeExpired e => simp [CtrlInv, handleLogin, hpage, hsess, hmeal]
            | otherFailure e => simp [CtrlInv, handleLogin, hpage, hsess, hmeal]
  | startScanner granted =>
      simp only [step]
      split
      case isFalse => exact ⟨hlog, hused, hdash, hsucc⟩
      case isTrue hg =>
        obtain ⟨hpage, hmeal, -⟩ := hg
        obtain ⟨hsess, -⟩ := hdash hpage
        by_cases hq : s.jsQRLoaded = false <;>
          by_cases hgr : granted = true <;>
            simp_all [CtrlInv, startQRScanner, hpage]
  | cancelScan =>
      simp only [step]
      split
      case isFalse => exact ⟨hlog, hused, hdash, hsucc⟩
      case isTrue hg =>
        obtain ⟨hpage, -⟩ := hg
        obtain ⟨hsess, hmeal⟩ := hdash hpage
        simp [CtrlInv, stopQRScanner, hpage, hsess, hmeal]
  | scanDetect payload resp =>
      simp only [step]
      split
      case isFalse => exact ⟨hlog, hused, hdash, hsucc⟩
      case isTrue hg =>
        obtain ⟨hpage, -⟩ := hg
        obtain ⟨hsess, hmeal⟩ := hdash hpage
        obtain ⟨sess, hsess'⟩ := Option.isSome_iff_exists.mp hsess
        by_cases hmatch : jsTrim payload = jsTrim CAFETERIA_QR_CODE
        · cases resp with
          | thrown =>
              simp [CtrlInv, onScan, verifyMeal, verifyMealResume, stopQRScanner,
                hmatch, hpage, hsess', hmeal]
          | ok r =>
              by_cases hok : r.success = true <;>
                simp [CtrlInv, onScan, verifyMeal, verifyMealResume, stopQRScanner,
                  hmatch, hpage, hsess', hmeal, hok]
        · simp [CtrlInv, onScan, stopQRScanner, hmatch, hpage, hsess', hmeal]
  | logout =>
      simp only [step]
      split
      case isFalse => exact ⟨hlog, hused, hdash, hsucc⟩
      case isTrue hg => simp [CtrlInv, handleLogout, stopQRScanner]
  | ack =>
      simp only [step]
      split
      case isFalse => exact ⟨hlog, hused, hdash, hsucc⟩
      case isTrue hpage =>
        obtain ⟨hsess, herr, hmeal⟩ := hused hpage
        simp [CtrlInv, ackToLogin, hpage, hsess, hmeal]
  | errorTimer =>
      cases hp : s.pendingErrorClear with
      | none => simpa [step, fireErrorTimer, hp] using ⟨hlog, hused, hdash, hsucc⟩
      | some n =>
          refine ⟨?_, ?_, ?_, ?_⟩ <;>
            simp only [step, fireErrorTimer, hp] <;>
            intro hpage
          · exact hlog hpage
          · exact ⟨(hused hpage).1, trivial, (hused hpage).2.2⟩
          · exact hdash hpage
          · exact hsucc hpage

/-- Every reachable state satisfies the invariant `CtrlInv`. -/
lemma reachable_inv {s : ControllerState} (h : Reachable s) : CtrlInv s := by
  induction h with
  | init => exact CtrlInv_init
  | next e _ ih => exact CtrlInv_step _ e ih

/-- Did the decoded `logMeal` response report success? -/
def isLogSuccess : FetchResult LogMealJson → Bool
  | FetchResult.ok r => r.success
  | FetchResult.thrown => false

/-- `b` differs from `a` only by letter case and by leading/trailing
whitespace: its characters are a whitespace prefix, a case-variant of
`a` (same characters up to `toUpperCase`), and a whitespace suffix. -/
def credSimilar (a b : String) : Prop :=
  ∃ u core v : List Char,
    (∀ c ∈ u, c.isWhitespace = true) ∧ (∀ c ∈ v, c.isWhitespace = true) ∧
    core.map Char.toUpper = a.data.map Char.toUpper ∧
    b.data = u ++ core ++ v

lemma toUpper_of_whitespace {c : Char} (h : c.isWhitespace = true) :
    c.toUpper = c := by
  simp only [Char.isWhitespace, Bool.or_eq_true, decide_eq_true_eq] at h
  rcases h with ((h | h) | h) | h <;> subst h <;> decide

lemma dropWhile_ws_append {u l : List Char}
    (h : ∀ c ∈ u, c.isWhitespace = true) :
    (u ++ l).dropWhile Char.isWhitespace = l.dropWhile Char.isWhitespace := by
  rw [List.dropWhile_append, List.dropWhile_eq_nil_iff.mpr h]
  simp

lemma trimChars_ws_append {u l : List Char}
    (h : ∀ c ∈ u, c.isWhitespace = true) :
    trimChars (u ++ l) = trimChars l := by
  unfold trimChars
  rw [dropWhile_ws_append h]

lemma trimChars_append_ws {l v : List Char}
    (h : ∀ c ∈ v, c.isWhitespace = true) :
    trimChars (l ++ v) = trimChars l := by
  unfold trimChars
  rw [List.dropWhile_append]
  by_cases hl : (l.dropWhile Char.isWhitespace).isEmpty = true
  · rw [if_pos hl, List.dropWhile_eq_nil_iff.mpr h]
    rw [List.isEmpty_iff] at hl
    rw [hl]
  · rw [if_neg hl, List.reverse_append, dropWhile_ws_append]
    intro c hc
    exact h c (List.mem_reverse.mp hc)

/-- Credentials that differ only in case or leading/trailing whitespace
normalize identically under `toUpperCase().trim()`. -/
lemma normalizeCred_of_credSimilar {a b : String} (h : credSimilar a b) :
    normalizeCred b = normalizeCred a := by
  obtain ⟨u, core, v, hu, hv, hcore, hb⟩ := h
  unfold normalizeCred jsTrim jsToUpper
  simp only [hb, List.map_append]
  have hu' : ∀ c ∈ u.map Char.toUpper, c.isWhitespace = true := by
    intro c hc
    obtain ⟨d, hd, rfl⟩ := List.mem_map.mp hc
    rw [toUpper_of_whitespace (hu d hd)]
    exact hu d hd
  have hv' : ∀ c ∈ v.map Char.toUpper, c.isWhitespace = true := by
    intro c hc
    obtain ⟨d, hd, rfl⟩ := List.mem_map.mp hc
    rw [toUpper_of_whitespace (hv d hd)]
    exact hv d hd
  rw [List.append_assoc, trimChars_ws_append hu', trimChars_append_ws hv', hcore]

/-- Did this step issue a `logMeal` request that the remote store
answered with success?  This happens exactly when the detection callback
fires on the dashboard with a matching payload, a session is present and
no meal is recorded yet (the conditions under which `verifyMeal` reaches
its `fetch`). -/
def successfulLogCall (s : ControllerState) (e : Event) : Bool :=
  match e with
  | Event.scanDetect payload resp =>
      decide (s.currentPage = Page.dashboard) && s.animationFrame &&
      decide (jsTrim payload = jsTrim CAFETERIA_QR_CODE) &&
      s.session.isSome && !s.mealUsedToday && isLogSuccess resp
  | _ => false

/-- Along the trace of `es` from `s`, no step issues a successful
`logMeal` call and no step is a dashboard-to-success transition. -/
def noSecond : ControllerState → List Event → Bool
  | _, [] => true
  | s, e :: es =>
      !successfulLogCall s e &&
      !(decide (s.currentPage = Page.dashboard) &&
        decide ((step s e).currentPage = Page.success)) &&
      noSecond (step s e) es

lemma step_preserves_success {s : ControllerState} {e : Event}
    (hs : s.currentPage = Page.success) (hne : e ≠ Event.logout) :
    (step s e).currentPage = Page.success := by
  cases e with
  | loginSubmit resp => simp [step, hs]
  | startScanner granted => simp [step, hs]
  | cancelScan => simp [step, hs]
  | scanDetect payload resp => simp [step, hs]
  | logout => exact absurd rfl hne
  | ack => simp [step, hs]
  | errorTimer =>
      cases hp : s.pendingErrorClear <;> simp [step, fireErrorTimer, hp, hs]

/-- The fields asserted cleared after logout or acknowledgement. -/
def cleared (t : ControllerState) : Prop :=
  t.currentPage = Page.login ∧ t.session = none ∧ t.mealUsedInfo = none ∧
  t.error = "" ∧ t.staffId = "" ∧ t.surname = "" ∧ t.mealUsedToday = false

lemma jsOr_ne_empty (o : Option String) (d : String) (hd : d ≠ "") :
    jsOr o d ≠ "" := by
  cases o with
  | none => simpa [jsOr] using hd
  | some m =>
      by_cases hm : m = ""
      · simpa [jsOr, hm] using hd
      · simp [jsOr, hm]

/-- C1: for a scan event in the dashboard state (where a session exists
and no meal is recorded yet), the controller ends on the success page if
and only if the decoded payload, after trimming, equals the expected
fixed string `CAFETERIA_QR_CODE` and the `logMeal` call reports success;
if either condition fails the state does not become success. -/
theorem C1_scan_to_success_iff (s : ControllerState) (payload : String)
    (resp : FetchResult LogMealJson)
    (hpage : s.currentPage = Page.dashboard) (hsess : s.session.isSome = true)
    (hmeal : s.mealUsedToday = false) :
    (onScan s payload resp).currentPage = Page.success ↔
      (jsTrim payload = jsTrim CAFETERIA_QR_CODE ∧ isLogSuccess resp = true) := by
  obtain ⟨sess, hsess'⟩ := Option.isSome_iff_exists.mp hsess
  by_cases hmatch : jsTrim payload = jsTrim CAFETERIA_QR_CODE
  · cases resp with
    | thrown =>
        simp [onScan, verifyMeal, verifyMealResume, stopQRScanner, hmatch,
          hpage, hsess', hmeal, isLogSuccess]
    | ok r =>
        by_cases hok : r.success = true <;>
          simp [onScan, verifyMeal, verifyMealResume, stopQRScanner, hmatch,
            hpage, hsess', hmeal, isLogSuccess, hok]
  · simp [onScan, stopQRScanner, hmatch, hpage]

theorem C1_scan_to_success_iff_witness :
    demoDashboard.currentPage = Page.dashboard ∧
    demoDashboard.session.isSome = true ∧ demoDashboard.mealUsedToday = false ∧
    ((onScan demoDashboard CAFETERIA_QR_CODE
        (FetchResult.ok { success := true, message := none })).currentPage = Page.success ↔
      (jsTrim CAFETERIA_QR_CODE = jsTrim CAFETERIA_QR_CODE ∧
        isLogSuccess (FetchResult.ok { success := true, message := none }) = true)) :=
  ⟨by decide, by decide, by decide,
   C1_scan_to_success_iff demoDashboard CAFETERIA_QR_CODE
     (FetchResult.ok { success := true, message := none })
     (by decide) (by decide) (by decide)⟩

/-- C3: an authenticate call answered with `ALREADY_USED` moves the
controller from login to the already-used page, populates the displayed
`MealUsedInfo` with the redemption's recorded fields (name, department,
location with its fallback, the normalized staff ID, date, time, price
with its fallback), and creates no session. -/
theorem C3_authenticate_already_used (s : ControllerState) (mi : MealInfoJson)
    (hpage : s.currentPage = Page.login) (hload : s.loading = false)
    (hsess : s.session = none) :
    (step s (Event.loginSubmit (FetchResult.ok (LoginJson.alreadyUsed mi)))).currentPage
        = Page.alreadyUsed ∧
    (step s (Event.loginSubmit (FetchResult.ok (LoginJson.alreadyUsed mi)))).mealUsedInfo
        = some
          { name := mi.name
            department := mi.department
            location := jsOr mi.location "Unknown"
            staffId := normalizeCred s.staffId
            usedDate := mi.date
            usedTime := mi.time
            price := mi.price.getD 0 } ∧
    (step s (Event.loginSubmit (FetchResult.ok (LoginJson.alreadyUsed mi)))).session
        = none := by
  simp [step, hpage, hload, handleLogin, hsess]

/-- A concrete already-used `mealInfo` payload. -/
def demoMealInfo : MealInfoJson :=
  { name := "ADE", department := "ICT", location := some "HQ",
    date := "2026-10-10", time := "12:01 PM", price := some 500 }

theorem C3_authenticate_already_used_witness :
    initState.currentPage = Page.login ∧ initState.loading = false ∧
    initState.session = none ∧
    (step initState (Event.loginSubmit (FetchResult.ok (LoginJson.alreadyUsed demoMealInfo)))).currentPage
      = Page.alreadyUsed :=
  ⟨by decide, by decide, by decide,
   (C3_authenticate_already_used initState demoMealInfo
     (by decide) (by decide) (by decide)).1⟩

/-- C4: a `logMeal` call from the dashboard that ends in a
remote-reported failure or a thrown network error surfaces a non-empty
error message, stays on the dashboard, and leaves the session and the
`mealUsedToday` flag unchanged. -/
theorem C4_log_failure_recoverable (s : ControllerState) (sess : SessionData)
    (resp : FetchResult LogMealJson)
    (hpage : s.currentPage = Page.dashboard) (hsess : s.session = some sess)
    (hmeal : s.mealUsedToday = false) (hfail : isLogSuccess resp = false) :
    (verifyMeal s resp).currentPage = Page.dashboard ∧
    (verifyMeal s resp).session = some sess ∧
    (verifyMeal s resp).mealUsedToday = false ∧
    (verifyMeal s resp).error ≠ "" := by
  cases resp with
  | thrown =>
      refine ⟨?_, ?_, ?_, ?_⟩ <;>
        simp [verifyMeal, verifyMealResume, hsess, hmeal, hpage]
  | ok r =>
      have hr : r.success = false := by simpa [isLogSuccess] using hfail
      refine ⟨?_, ?_, ?_, ?_⟩ <;>
        simp [verifyMeal, verifyMealResume, hsess, hmeal, hpage, hr]
      exact jsOr_ne_empty r.message "Failed to log meal" (by decide)

theorem C4_log_failure_recoverable_witness :
    demoDashboard.currentPage = Page.dashboard ∧
    demoDashboard.mealUsedToday = false ∧
    isLogSuccess (FetchResult.ok { success := false, message := none }) = false ∧
    (verifyMeal demoDashboard (FetchResult.ok { success := false, message := none })).currentPage
      = Page.dashboard :=
  ⟨by decide, by decide, by decide,
   (C4_log_failure_recoverable demoDashboard
     { id := "ENL001", name := "ADE", department := "ICT", location := "HQ", price := 500 }
     (FetchResult.ok { success := false, message := none })
     (by decide) (by decide) (by decide) (by decide)).1⟩

/-- C6: a scan whose trimmed payload differs from the expected string
leaves the page at dashboard and the data model (session, redemption
info, meal flag, credentials, loading) untouched, surfaces the
invalid-code error, and schedules the 5000 ms timer whose firing clears
the error again. -/
theorem C6_scan_mismatch_frame (s : ControllerState) (payload : String)
    (resp : FetchResult LogMealJson)
    (hpage : s.currentPage = Page.dashboard)
    (hmis : jsTrim payload ≠ jsTrim CAFETERIA_QR_CODE) :
    (onScan s payload resp).currentPage = Page.dashboard ∧
    (onScan s payload resp).session = s.session ∧
    (onScan s payload resp).mealUsedInfo = s.mealUsedInfo ∧
    (onScan s payload resp).mealUsedToday = s.mealUsedToday ∧
    (onScan s payload resp).staffId = s.staffId ∧
    (onScan s payload resp).surname = s.surname ∧
    (onScan s payload resp).loading = s.loading ∧
    (onScan s payload resp).error
      = "Invalid QR Code. Please scan the correct canteen QR code." ∧
    (onScan s payload resp).pendingErrorClear = some 5000 ∧
    (fireErrorTimer (onScan s payload resp)).error = "" := by
  refine ⟨?_, ?_, ?_, ?_, ?_, ?_, ?_, ?_, ?_, ?_⟩ <;>
    simp [onScan, stopQRScanner, fireErrorTimer, hmis, hpage]

theorem C6_scan_mismatch_frame_witness :
    demoDashboard.currentPage = Page.dashboard ∧
    jsTrim "WRONG CODE" ≠ jsTrim CAFETERIA_QR_CODE ∧
    (onScan demoDashboard "WRONG CODE" FetchResult.thrown).currentPage = Page.dashboard ∧
    (fireErrorTimer (onScan demoDashboard "WRONG CODE" FetchResult.thrown)).error = "" :=
  ⟨by decide, by decide,
   (C6_scan_mismatch_frame demoDashboard "WRONG CODE" FetchResult.thrown
     (by decide) (by decide)).1,
   (C6_scan_mismatch_frame demoDashboard "WRONG CODE" FetchResult.thrown
     (by decide) (by decide)).2.2.2.2.2.2.2.2.2⟩

/-- C9: logout is idempotent — applying `handleLogout` twice yields the
same state as applying it once (every field it writes is overwritten
with the same constant, and every field it preserves was preserved the
first time). -/
theorem C9_logout_idempotent (s : ControllerState) :
    handleLogout (handleLogout s) = handleLogout s := rfl

/-- C2: once the controller is on the success page, no sequence of user
events that excludes logout can leave it: every trace without logout
keeps the page at success, issues no further successful `logMeal` call,
and contains no further dashboard-to-success transition. -/
theorem C2_success_at_most_once (s : ControllerState) (es : List Event)
    (hs : s.currentPage = Page.success) (hno : Event.logout ∉ es) :
    (es.foldl step s).currentPage = Page.success ∧ noSecond s es = true := by
  induction es generalizing s with
  | nil => exact ⟨hs, rfl⟩
  | cons e es ih =>
      have hne : e ≠ Event.logout := fun h => hno (h ▸ List.mem_cons_self e es)
      have hno' : Event.logout ∉ es := fun h => hno (List.mem_cons_of_mem e h)
      have hstep := step_preserves_success hs hne
      obtain ⟨h1, h2⟩ := ih (step s e) hstep hno'
      refine ⟨h1, ?_⟩
      simp only [noSecond, Bool.and_eq_true, Bool.not_eq_true']
      refine ⟨⟨?_, ?_⟩, h2⟩
      · cases e <;> simp [successfulLogCall, hs]
      · simp [hs]

/-- A concrete success-page state and a logout-free event list. -/
def demoSuccess : ControllerState :=
  { initState with
    currentPage := Page.success
    mealUsedToday := true
    session := some { id := "ENL001", name := "ADE", department := "ICT",
                      location := "HQ", price := 500 } }

/-- A logout-free list of user events hammering a success-page state. -/
def demoEvents : List Event :=
  [Event.errorTimer,
   Event.scanDetect CAFETERIA_QR_CODE (FetchResult.ok { success := true, message := none }),
   Event.startScanner true,
   Event.ack]

theorem C2_success_at_most_once_witness :
    demoSuccess.currentPage = Page.success ∧
    Event.logout ∉ demoEvents ∧
    (demoEvents.foldl step demoSuccess).currentPage = Page.success ∧
    noSecond demoSuccess demoEvents = true :=
  ⟨by decide, by decide,
   (C2_success_at_most_once demoSuccess demoEvents (by decide) (by decide)).1,
   (C2_success_at_most_once demoSuccess demoEvents (by decide) (by decide)).2⟩

/-- C7: from any reachable state, logout (available on the dashboard and
success pages) and the already-used acknowledgement both land on the
login page with the session cleared and all transient info cleared:
`mealUsedInfo` null, empty error, empty credentials, meal flag reset. -/
theorem C7_logout_ack_clears (s : ControllerState) (h : Reachable s) :
    ((s.currentPage = Page.dashboard ∨ s.currentPage = Page.success) →
      cleared (handleLogout s)) ∧
    (s.currentPage = Page.alreadyUsed → cleared (ackToLogin s)) := by
  refine ⟨fun _ => ?_, fun hpage => ?_⟩
  · simp [cleared, handleLogout, stopQRScanner]
  · obtain ⟨-, hused, -, -⟩ := reachable_inv h
    obtain ⟨hsess, herr, hmeal⟩ := hused hpage
    simp [cleared, ackToLogin, hpage, hsess, herr, hmeal]

/-- The already-used state reached from the initial state by one
authenticate call answered `ALREADY_USED`. -/
def demoAlready : ControllerState :=
  step initState (Event.loginSubmit (FetchResult.ok (LoginJson.alreadyUsed demoMealInfo)))

theorem C7_logout_ack_clears_witness :
    demoAlready.currentPage = Page.alreadyUsed ∧ cleared (ackToLogin demoAlready) :=
  ⟨by decide,
   (C7_logout_ack_clears demoAlready
     (Reachable.next (Event.loginSubmit (FetchResult.ok (LoginJson.alreadyUsed demoMealInfo)))
       Reachable.init)).2 (by decide)⟩

/-- C5 as stated is false on the code: a `logMeal` response that
resolves after `handleLogout` has cleared the state runs the stored
continuation, and on a success flag it moves the page from login to
success (it is not ignored). -/
theorem C5_counterexample :
    (handleLogout demoDashboard).currentPage = Page.login ∧
    (handleLogout demoDashboard).session = none ∧
    (verifyMealResume (handleLogout demoDashboard)
        (FetchResult.ok { success := true, message := none })).currentPage ≠ Page.login := by
  decide

/-- C5 amended: a late `logMeal` completion after logout never
repopulates the session (it stays null); a failure or thrown completion
leaves the page at login and is harmless; but a success completion sets
the page to success and the meal flag to true, so it is not ignored. -/
theorem C5_late_completion (s : ControllerState) (resp : FetchResult LogMealJson) :
    (verifyMealResume (handleLogout s) resp).session = none ∧
    (isLogSuccess resp = false →
      (verifyMealResume (handleLogout s) resp).currentPage = Page.login) ∧
    (isLogSuccess resp = true →
      (verifyMealResume (handleLogout s) resp).currentPage = Page.success ∧
      (verifyMealResume (handleLogout s) resp).mealUsedToday = true) := by
  cases resp with
  | thrown => simp [verifyMealResume, handleLogout, stopQRScanner, isLogSuccess]
  | ok r =>
      by_cases hok : r.success = true <;>
        simp [verifyMealResume, handleLogout, stopQRScanner, isLogSuccess, hok]

theorem C5_late_completion_witness :
    (verifyMealResume (handleLogout demoDashboard) FetchResult.thrown).session = none ∧
    (verifyMealResume (handleLogout demoDashboard) FetchResult.thrown).currentPage
      = Page.login :=
  ⟨(C5_late_completion demoDashboard FetchResult.thrown).1,
   (C5_late_completion demoDashboard FetchResult.thrown).2.1 (by decide)⟩

/-- C8 as stated is false on the code: a `TIME_EXPIRED` response whose
server-supplied message happens to equal the invalid-credentials
fallback produces exactly the same state — the same page and the same
user-facing message — as an invalid-credentials response, so the two
outcomes are not always distinct. -/
theorem C8_counterexample :
    handleLogin initState
        (FetchResult.ok (LoginJson.timeExpired (some "Invalid Staff ID or Surname")))
      = handleLogin initState (FetchResult.ok (LoginJson.otherFailure none)) := by
  decide

/-- C8 amended: a thrown authenticate call fails closed — the page stays
at login, no session is created, and the generic connection-failure
message is shown; an already-used response is distinguished from the
other two outcomes by its target page; time-expired and
invalid-credentials both stay at login and are distinguished exactly
when the remote's time-expired message differs from the displayed
invalid-credentials message. -/
theorem C8_authenticate_outcomes (s : ControllerState) (mi : MealInfoJson)
    (e1 e2 : Option String)
    (hpage : s.currentPage = Page.login) (hsess : s.session = none)
    (hmsg : e2.getD "" ≠ jsOr e1 "Invalid Staff ID or Surname") :
    (handleLogin s FetchResult.thrown).currentPage = Page.login ∧
    (handleLogin s FetchResult.thrown).session = none ∧
    (handleLogin s FetchResult.thrown).error
      = "Connection failed. Please check your internet connection." ∧
    (handleLogin s (FetchResult.ok (LoginJson.alreadyUsed mi))).currentPage
      = Page.alreadyUsed ∧
    (handleLogin s (FetchResult.ok (LoginJson.timeExpired e2))).currentPage = Page.login ∧
    (handleLogin s (FetchResult.ok (LoginJson.otherFailure e1))).currentPage = Page.login ∧
    (handleLogin s (FetchResult.ok (LoginJson.timeExpired e2))).error
      ≠ (handleLogin s (FetchResult.ok (LoginJson.otherFailure e1))).error := by
  refine ⟨?_, ?_, ?_, ?_, ?_, ?_, ?_⟩ <;> simp [handleLogin, hpage, hsess]
  exact hmsg

theorem C8_authenticate_outcomes_witness :
    (some "Login closed after 5PM" : Option String).getD ""
      ≠ jsOr none "Invalid Staff ID or Surname" ∧
    (handleLogin initState FetchResult.thrown).currentPage = Page.login ∧
    (handleLogin initState
        (FetchResult.ok (LoginJson.timeExpired (some "Login closed after 5PM")))).error
      ≠ (handleLogin initState (FetchResult.ok (LoginJson.otherFailure none))).error :=
  ⟨by decide,
   (C8_authenticate_outcomes initState demoMealInfo none
     (some "Login closed after 5PM") (by decide) (by decide) (by decide)).1,
   (C8_authenticate_outcomes initState demoMealInfo none
     (some "Login closed after 5PM") (by decide) (by decide) (by decide)).2.2.2.2.2.2⟩

/-- A concrete staff payload for the login-success witnesses. -/
def demoStaff : StaffJson :=
  { name := "ADE", department := "ICT", location := some "HQ", price := some 500 }

/-- C10: credentials that differ only in letter case or in
leading/trailing whitespace produce the same `batchLogin` request —
both fields are sent uppercased and trimmed — and the session created on
success records the normalized (uppercased, trimmed) staff ID, not the
raw input. -/
theorem C10_login_normalized (id1 id2 sn1 sn2 date : String)
    (st : StaffJson) (s : ControllerState)
    (hid : credSimilar id1 id2) (hsn : credSimilar sn1 sn2) :
    mkLoginRequest id2 sn2 date = mkLoginRequest id1 sn1 date ∧
    (handleLogin { s with staffId := id2 }
        (FetchResult.ok (LoginJson.success st))).session
      = some
        { id := normalizeCred id1
          name := st.name
          department := st.department
          location := jsOr st.location "NOT SET"
          price := st.price.getD 0 } := by
  have h1 := normalizeCred_of_credSimilar hid
  have h2 := normalizeCred_of_credSimilar hsn
  constructor
  · simp [mkLoginRequest, h1, h2]
  · simp [handleLogin, h1]

theorem C10_login_normalized_witness :
    mkLoginRequest "  ENL001 " " ade" "2026-10-11"
      = mkLoginRequest "enl001" "ADE" "2026-10-11" ∧
    (handleLogin { initState with staffId := "  ENL001 " }
        (FetchResult.ok (LoginJson.success demoStaff))).session
      = some
        { id := normalizeCred "enl001"
          name := demoStaff.name
          department := demoStaff.department
          location := jsOr demoStaff.location "NOT SET"
          price := demoStaff.price.getD 0 } :=
  C10_login_normalized "enl001" "  ENL001 " "ADE" " ade" "2026-10-11" demoStaff initState
    ⟨[' ', ' '], "ENL001".data, [' '], by decide, by decide, by decide, by decide⟩
    ⟨[' '], "ade".data, [], by decide, by decide, by decide, by decide⟩
